import Mathlib

/-!
Verification of the RedInk image-generator backends
(`backend/generators/modelscope_z_image.py` and
`backend/generators/wan26_t2i.py`) against their design specification.

The Python code is shallowly embedded:
* JSON documents become the inductive type `JVal`; Python truthiness is
  `truthy`, `a or b` is `pyOr`, `dict.get` is `dictGet` (returning `jnull`,
  i.e. Python `None`, for a missing key).
* Attribute errors produced by calling `.get`/`.upper` on values of the
  wrong dynamic type are modelled with `Except String`.
* The HTTP transport is an oracle environment: the generator functions
  receive the status code and parsed body of each response rather than
  performing network effects.  The polling loop's clock is idealised:
  network calls are instantaneous and each `sleep(poll_interval)` advances
  time by exactly `poll_interval`, so the deadline check of iteration `i`
  sees time `t0 + i * pollInterval`.
* Strings are processed on `List Char`; the ASCII fragments of Python's
  `str.strip`, `str.lower`, `str.upper` and `str.isdigit` are used.
-/

namespace RedInk

/-- JSON-like dynamic values (the shape of `resp.json()`). -/
inductive JVal where
  | jnull
  | jbool (b : Bool)
  | jnum (n : Int)
  | jstr (s : String)
  | jarr (elems : List JVal)
  | jobj (fields : List (String × JVal))

/-- Python truthiness of a JSON value (`bool(v)`). -/
def truthy : JVal → Bool
  | .jnull => false
  | .jbool b => b
  | .jnum n => n != 0
  | .jstr s => !s.data.isEmpty
  | .jarr l => !l.isEmpty
  | .jobj fs => !fs.isEmpty

/-- Python `a or b`. -/
def pyOr (a b : JVal) : JVal := if truthy a then a else b

/-- Python `dict.get(k)` on a JSON object's field list: `None` when absent. -/
def dictGet (fs : List (String × JVal)) (k : String) : JVal :=
  match fs.lookup k with
  | some v => v
  | none => .jnull

/-- Python `.get(k)` on an arbitrary value: an `AttributeError` unless the
value is a dict. -/
def jGet (v : JVal) (k : String) : Except String JVal :=
  match v with
  | .jobj fs => .ok (dictGet fs k)
  | _ => .error "AttributeError"

/-! ### ASCII character helpers -/

/-- ASCII whitespace (the fragment of Python `str.strip`'s character class
exercised by this code base). -/
def isSpaceChar (c : Char) : Bool :=
  c = ' ' || c = '\t' || c = '\n' || c = '\r' || c = '\x0b' || c = '\x0c'

/-- ASCII decimal digit (the fragment of Python `str.isdigit` used here). -/
def isDigitChar (c : Char) : Bool := '0' ≤ c && c ≤ '9'

/-- ASCII lowering of one character (Python `str.lower`, ASCII fragment). -/
def lowerChar (c : Char) : Char :=
  if 'A' ≤ c && c ≤ 'Z' then Char.ofNat (c.toNat + 32) else c

/-- ASCII uppering of one character (Python `str.upper`, ASCII fragment). -/
def upperChar (c : Char) : Char :=
  if 'a' ≤ c && c ≤ 'z' then Char.ofNat (c.toNat - 32) else c

/-- Python `str.strip()` on a character list. -/
def pyStripL (l : List Char) : List Char :=
  ((l.dropWhile isSpaceChar).reverse.dropWhile isSpaceChar).reverse

/-- Python `str.rstrip()` on a character list. -/
def pyRstripL (l : List Char) : List Char :=
  (l.reverse.dropWhile isSpaceChar).reverse

/-- Python `str.rstrip('/')` on a character list. -/
def rstripSlash (l : List Char) : List Char :=
  (l.reverse.dropWhile (fun c => c = '/')).reverse

/-- Python `str.strip()` on a `String`. -/
def pyStrip (s : String) : String := String.mk (pyStripL s.data)

/-- Python `str.upper()` on a `String` (ASCII fragment). -/
def pyUpperStr (s : String) : String := String.mk (s.data.map upperChar)

/-- Python `s.split(c)` for a one-character separator (keeps empty pieces,
`"" ↦ [""]`). -/
def pySplitChar (c : Char) : List Char → List (List Char)
  | [] => [[]]
  | x :: xs =>
    match pySplitChar c xs with
    | [] => if x = c then [[], []] else [[x]]
    | h :: t => if x = c then [] :: h :: t else (x :: h) :: t

/-- Python `s.isdigit()` (ASCII fragment): nonempty and all digits. -/
def pyIsDigit (l : List Char) : Bool := !l.isEmpty && l.all isDigitChar

/-- Python `int(s)` on a digit string. -/
def pyParseNat (l : List Char) : Nat :=
  l.foldl (fun n c => 10 * n + (c.toNat - 48)) 0

/-- Decimal rendering, fuel-driven so the kernel can evaluate it
(`showDigits fuel n` is the decimal of `n` whenever `n ≤ fuel`). -/
def showDigits : Nat → Nat → List Char
  | 0, _ => []
  | _ + 1, 0 => []
  | fuel + 1, n + 1 =>
    showDigits fuel ((n + 1) / 10) ++ [Nat.digitChar ((n + 1) % 10)]

/-- Python `str(n)` for a nonnegative integer (as in `f-string` formatting). -/
def pyShowNat (n : Nat) : List Char :=
  if n = 0 then ['0'] else showDigits n n

/-! ### `wan26_t2i._aspect_ratio_to_size` and `_normalize_size` -/

/-- The `mapping` table of `_aspect_ratio_to_size`. -/
def aspectRatioTable : List (String × String) :=
  [("1:1", "1280*1280"), ("2:3", "800*1200"), ("3:2", "1200*800"),
   ("3:4", "960*1280"), ("4:3", "1280*960"), ("9:16", "720*1280"),
   ("16:9", "1280*720"), ("21:9", "1344*576")]

/-- `wan26_t2i._aspect_ratio_to_size`: `mapping.get(aspect_ratio, "1280*1280")`. -/
def aspectRatioToSize (aspectRatio : String) : String :=
  match aspectRatioTable.lookup aspectRatio with
  | some v => v
  | none => "1280*1280"

/-- The two `str.replace` calls of `_normalize_size`
(`replace("x", "*")` after lowering, then `replace("×", "*")`), fused
per-character. -/
def starChar (c : Char) : Char :=
  if c = 'x' then '*' else if c = '×' then '*' else c

/-- The processed pieces `[p for p in normalized.split("*") if p]` computed by
`_normalize_size` for an explicit size string. -/
def sizeParts (size : String) : List (List Char) :=
  (pySplitChar '*' (((pyStripL size.data).map lowerChar).map starChar)).filter
    (fun p => !p.isEmpty)

/-- Whether `_normalize_size` accepts the explicit size string: exactly two
pieces, both all-digit. -/
def sizePartsGuard (size : String) : Bool :=
  match sizeParts size with
  | [p, q] => pyIsDigit p && pyIsDigit q
  | _ => false

/-- `wan26_t2i._normalize_size` (`None` models a missing/`None` argument;
`resp` strings are the only sizes passed in practice, so `str(size)` is the
identity embedding). -/
def normalizeSize (size : Option String) (aspectRatio : String) : String :=
  match size with
  | none => aspectRatioToSize aspectRatio
  | some s =>
    if s.data.isEmpty then aspectRatioToSize aspectRatio
    else
      match sizeParts s with
      | [p, q] =>
        if pyIsDigit p && pyIsDigit q then
          String.mk (pyShowNat (pyParseNat p) ++ '*' :: pyShowNat (pyParseNat q))
        else aspectRatioToSize aspectRatio
      | _ => aspectRatioToSize aspectRatio

/-! ### `modelscope_z_image._normalize_prompt` -/

/-- `ModelScopeZImageGenerator._normalize_prompt`: trim, floor the maximum at
100, truncate and right-trim.  `maxChars` is `self.max_prompt_chars` (an
arbitrary `int`). -/
def normalizePrompt (prompt : String) (maxChars : Int) : String :=
  let text := pyStripL prompt.data
  let maxC := if maxChars < 100 then (100 : Int) else maxChars
  if (text.length : Int) ≤ maxC then String.mk text
  else String.mk (pyRstripL (text.take maxC.toNat))

/-! ### `wan26_t2i._extract_image_url_or_b64` -/

/-- The two-field image reference (`{"url": ..., "b64": ...}`) returned by
`_extract_image_url_or_b64`; `jnull` models Python `None`. -/
structure ImageRef where
  url : JVal
  b64 : JVal

/-- The `{"url": None, "b64": None}` reference. -/
def emptyRef : ImageRef := ⟨.jnull, .jnull⟩

/-- The inner scan of `message.content` entries (the `for part in content`
loop): first part carrying a truthy url or inline field wins. -/
def scanParts : List JVal → Option ImageRef
  | [] => none
  | p :: rest =>
    match p with
    | .jobj pfs =>
      let url := pyOr (dictGet pfs "image")
        (pyOr (dictGet pfs "image_url") (dictGet pfs "url"))
      let b64 := pyOr (dictGet pfs "b64_json")
        (pyOr (dictGet pfs "b64") (dictGet pfs "base64"))
      if truthy url || truthy b64 then some ⟨url, b64⟩ else scanParts rest
    | _ => scanParts rest

/-- The `for choice in choices` loop of `_extract_image_url_or_b64`. -/
def scanChoices : List JVal → Option ImageRef
  | [] => none
  | c :: rest =>
    match c with
    | .jobj cfs =>
      match pyOr (dictGet cfs "message") (.jobj []) with
      | .jobj mfs =>
        match dictGet mfs "content" with
        | .jarr parts =>
          match scanParts parts with
          | some r => some r
          | none => scanChoices rest
        | .jobj pfs =>
          let url := pyOr (dictGet pfs "image")
            (pyOr (dictGet pfs "image_url") (dictGet pfs "url"))
          let b64 := pyOr (dictGet pfs "b64_json")
            (pyOr (dictGet pfs "b64") (dictGet pfs "base64"))
          if truthy url || truthy b64 then some ⟨url, b64⟩ else scanChoices rest
        | _ => scanChoices rest
      | _ => scanChoices rest
    | _ => scanChoices rest

/-- The `output.choices` branch plus final fallback of
`_extract_image_url_or_b64`, given the fields of `output`. -/
def extractChoices (ofs : List (String × JVal)) : ImageRef :=
  match dictGet ofs "choices" with
  | .jarr (c :: cs) => (scanChoices (c :: cs)).getD emptyRef
  | _ => emptyRef

/-- `output = (data.get("output") or {}) if isinstance(data, dict) else {}`. -/
def outputOf (data : JVal) : JVal :=
  match data with
  | .jobj fs => pyOr (dictGet fs "output") (.jobj [])
  | _ => .jobj []

/-- The early-returning `output.results[0]` branch of
`_extract_image_url_or_b64`: `some` when `results` is a nonempty list
whose first entry (`results[0] or {}`) is a dict. -/
def resultsFirst (ofs : List (String × JVal)) : Option ImageRef :=
  match dictGet ofs "results" with
  | .jarr (r0 :: _) =>
    match pyOr r0 (.jobj []) with
    | .jobj ffs =>
      some ⟨dictGet ffs "url",
            pyOr (dictGet ffs "b64_json")
              (pyOr (dictGet ffs "b64") (dictGet ffs "base64"))⟩
    | _ => none
  | _ => none

/-- `wan26_t2i._extract_image_url_or_b64`.  `.error` marks the
`AttributeError` Python raises when `output` is a truthy non-dict. -/
def extractRef (data : JVal) : Except String ImageRef :=
  match outputOf data with
  | .jobj ofs =>
    match resultsFirst ofs with
    | some r => .ok r
    | none => .ok (extractChoices ofs)
  | _ => .error "AttributeError"

/-- Whether the `output.choices` branch of `_extract_image_url_or_b64`
returns early: `choices` is a nonempty list and the scan finds an entry
with a truthy url or inline field. -/
def choicesMatch (ofs : List (String × JVal)) : Bool :=
  match dictGet ofs "choices" with
  | .jarr (c :: cs) => (scanChoices (c :: cs)).isSome
  | _ => false

/-- A document matches a known shape when either extraction branch returns
early. -/
def matchesShape (data : JVal) : Bool :=
  match outputOf data with
  | .jobj ofs => (resultsFirst ofs).isSome || choicesMatch ofs
  | _ => false

/-! ### Base64 (`base64.b64decode` and, for specification, encoding) -/

/-- The standard base64 alphabet as a list, index `i` holding character `i`. -/
def b64Alphabet : List Char :=
  "ABCDEFGHIJKLMNOPQRSTUVWXYZabcdefghijklmnopqrstuvwxyz0123456789+/".data

/-- Character of a 6-bit group. -/
def b64Char (i : Nat) : Char := b64Alphabet.getD i '?'

/-- Index of a base64 alphabet character. -/
def b64Index (c : Char) : Option Nat := b64Alphabet.indexOf? c

/-- Membership in the base64 alphabet. -/
def isB64Char (c : Char) : Bool := (b64Index c).isSome

/-- Standard base64 encoding of a byte list, three bytes per four
characters, `=`-padded (the behaviour of `base64.b64encode`). -/
def b64EncodeChunks : List Nat → List Char
  | [] => []
  | [b0] => [b64Char (b0 / 4), b64Char (b0 % 4 * 16), '=', '=']
  | [b0, b1] =>
    [b64Char (b0 / 4), b64Char (b0 % 4 * 16 + b1 / 16), b64Char (b1 % 16 * 4), '=']
  | b0 :: b1 :: b2 :: rest =>
    b64Char (b0 / 4) :: b64Char (b0 % 4 * 16 + b1 / 16) ::
      b64Char (b1 % 16 * 4 + b2 / 64) :: b64Char (b2 % 64) ::
      b64EncodeChunks rest

/-- Decoding of a base64 character stream in four-character blocks, with
`=` padding allowed only at the very end; any other shape is a
`binascii.Error`. -/
def b64DecodeChunks : List Char → Except String (List Nat)
  | [] => .ok []
  | c0 :: c1 :: c2 :: c3 :: rest =>
    match b64Index c0, b64Index c1 with
    | some i0, some i1 =>
      if c2 = '=' then
        if c3 = '=' && rest.isEmpty then .ok [i0 * 4 + i1 / 16]
        else .error "binascii.Error"
      else
        match b64Index c2 with
        | some i2 =>
          if c3 = '=' then
            if rest.isEmpty then .ok [i0 * 4 + i1 / 16, i1 % 16 * 16 + i2 / 4]
            else .error "binascii.Error"
          else
            match b64Index c3 with
            | some i3 =>
              match b64DecodeChunks rest with
              | .ok bs =>
                .ok ((i0 * 4 + i1 / 16) :: (i1 % 16 * 16 + i2 / 4) ::
                      (i2 % 4 * 64 + i3) :: bs)
              | .error e => .error e
            | none => .error "binascii.Error"
        | none => .error "binascii.Error"
    | _, _ => .error "binascii.Error"
  | _ => .error "binascii.Error"

/-- `base64.b64decode` (default mode): characters outside the alphabet and
padding set are discarded, then the stream is decoded in blocks of four. -/
def pyB64Decode (s : String) : Except String (List Nat) :=
  b64DecodeChunks (s.data.filter (fun c => isB64Char c || c = '='))

/-! ### `Wan26T2IGenerator.generate_image` -/

/-- Transport oracle for the synchronous generator: the status and parsed
body of the generation POST, and status/bytes of a GET per image URL. -/
structure WanEnv where
  postStatus : Nat
  postBody : JVal
  fetchStatus : String → Nat
  fetchBytes : String → List Nat

/-- Possible outcomes of `Wan26T2IGenerator.generate_image`; every `raise`
site of the source gets its own constructor. -/
inductive WanOutcome where
  | success (bytes : List Nat)
  | configError
  | httpError (status : Nat)
  | fetchHttpError (status : Nat)
  | noImage
  | decodeError
  | pyError (what : String)
  deriving DecidableEq

/-- Python `s.split(",", 1)[1]`: the text after the first comma, an
`IndexError` when there is none. -/
def afterFirstComma : List Char → Option (List Char)
  | [] => none
  | c :: rest => if c = ',' then some rest else afterFirstComma rest

/-- `Wan26T2IGenerator.generate_image` over the transport oracle.  Request
construction (prompt, size, flags) does not influence the oracle's
responses and is modelled separately (`normalizeSize`); this function is
the response-processing path from the POST onwards. -/
def wanGenerate (apiKey : String) (env : WanEnv) : WanOutcome :=
  if apiKey.data.isEmpty then .configError
  else if env.postStatus ≠ 200 then .httpError env.postStatus
  else
    match extractRef env.postBody with
    | .error e => .pyError e
    | .ok ref =>
      if truthy ref.url then
        match ref.url with
        | .jstr u =>
          if env.fetchStatus u ≠ 200 then .fetchHttpError (env.fetchStatus u)
          else .success (env.fetchBytes u)
        | _ => .pyError "TypeError"
      else if truthy ref.b64 then
        match ref.b64 with
        | .jstr s0 =>
          if "data:".data.isPrefixOf s0.data then
            match afterFirstComma s0.data with
            | none => .pyError "IndexError"
            | some tail =>
              match pyB64Decode (String.mk tail) with
              | .ok bs => .success bs
              | .error _ => .decodeError
          else
            match pyB64Decode s0 with
            | .ok bs => .success bs
            | .error _ => .decodeError
        | _ => .pyError "TypeError"
      else .noImage

/-! ### `ModelScopeZImageGenerator` -/

/-- The configuration slice of `ModelScopeZImageGenerator` that the
generation call reads. -/
structure MSConfig where
  apiKey : String
  modelCfg : String
  pollInterval : ℚ
  maxWait : ℚ

/-- Transport oracle for the asynchronous generator: the creation POST, the
`i`-th status poll, and the image GET per URL. -/
structure MSEnv where
  createStatus : Nat
  createBody : JVal
  pollStatus : Nat → Nat
  pollBody : Nat → JVal
  fetchStatus : String → Nat
  fetchBytes : String → List Nat

/-- Possible outcomes of `ModelScopeZImageGenerator.generate_image`; one
constructor per `raise` site (and `success` for the returned bytes). -/
inductive MSOutcome where
  | success (bytes : List Nat)
  | configError (what : String)
  | createHttpError (status : Nat)
  | noTaskId
  | timeoutError (maxWait : ℚ) (lastStatus : Option String)
  | pollHttpError (status : Nat)
  | noOutputImages
  | invalidImageUrl
  | fetchHttpError (status : Nat)
  | providerFailure (msg : JVal)
  | pyError (what : String)

/-- The provider-failure message of the `FAILED` branch:
`task_data.get("message") or task_data.get("error") or task_data.get("output")
or "未知错误"`. -/
def msFailMsg (fs : List (String × JVal)) : JVal :=
  pyOr (dictGet fs "message")
    (pyOr (dictGet fs "error") (pyOr (dictGet fs "output") (.jstr "未知错误")))

/-- The polling loop of `generate_image` (lines 125–175).  The clock is
idealised: network calls are instantaneous and each sleep advances time by
`pollInterval`, so the deadline check of iteration `i` compares
`t0 + i * pollInterval > t0 + maxWait`, i.e. `maxWait < i * pollInterval`.
`fuel` bounds the loop unrolling; `none` means the fuel ran out. -/
def msPollLoop (cfg : MSConfig) (env : MSEnv) :
    Nat → Nat → Option String → Option MSOutcome
  | 0, _, _ => none
  | fuel + 1, i, lastStatus =>
    if cfg.maxWait < (i : ℚ) * cfg.pollInterval then
      some (.timeoutError cfg.maxWait lastStatus)
    else if env.pollStatus i ≠ 200 then some (.pollHttpError (env.pollStatus i))
    else
      match pyOr (env.pollBody i) (.jobj []) with
      | .jobj fs =>
        match pyOr (dictGet fs "task_status")
            (pyOr (dictGet fs "status") (.jstr "")) with
        | .jstr s0 =>
          let taskStatus := pyUpperStr s0
          let lastStatus' := if taskStatus.data.isEmpty then lastStatus else some taskStatus
          if taskStatus = "SUCCEED" then
            match pyOr (dictGet fs "output_images") (.jarr []) with
            | .jarr (u0 :: _) =>
              match u0 with
              | .jstr u =>
                if (pyStrip u).data.isEmpty then some .invalidImageUrl
                else if env.fetchStatus u ≠ 200 then
                  some (.fetchHttpError (env.fetchStatus u))
                else some (.success (env.fetchBytes u))
              | _ => some .invalidImageUrl
            | _ => some .noOutputImages
          else if taskStatus = "FAILED" then some (.providerFailure (msFailMsg fs))
          else msPollLoop cfg env fuel (i + 1) lastStatus'
        | _ => some (.pyError "AttributeError")
      | _ => some (.pyError "AttributeError")

/-- The fuel handed to the polling loop: `⌈maxWait / pollInterval⌉ + 2`,
i.e. at most `⌈maxWait / pollInterval⌉ + 1` iterations that reach the
status poll plus the final deadline-check iteration. -/
def msFuel (cfg : MSConfig) : Nat :=
  (max 0 ⌈cfg.maxWait / cfg.pollInterval⌉).toNat + 2

/-- `ModelScopeZImageGenerator.generate_image` over the transport oracle
(validation, task creation and task-id extraction, then the polling
loop). -/
def msGenerate (cfg : MSConfig) (env : MSEnv) (modelArg : Option String) :
    Option MSOutcome :=
  if cfg.apiKey.data.isEmpty then some (.configError "api_key")
  else
    let modelId := pyStrip (match modelArg with
      | some m => if m.data.isEmpty then cfg.modelCfg else m
      | none => cfg.modelCfg)
    if modelId.data.isEmpty then some (.configError "model")
    else if env.createStatus ≠ 200 then some (.createHttpError env.createStatus)
    else
      match pyOr env.createBody (.jobj []) with
      | .jobj fs =>
        if truthy (pyOr (dictGet fs "task_id") (dictGet fs "id")) then
          msPollLoop cfg env (msFuel cfg) 0 none
        else some .noTaskId
      | _ => some (.pyError "AttributeError")

/-! ### Base-URL normalization of the two constructors -/

/-- Python `config.get(key) or default` for string-valued settings. -/
def pyStrOr (o : Option String) (d : String) : String :=
  match o with
  | some s => if s.data.isEmpty then d else s
  | none => d

/-- `re.search(r'^/(v\d+)', endpoint)` of `ModelScopeZImageGenerator.__init__`:
the leading version segment `/v<digits>` of the endpoint path, if any
(`'/' + match.group(1)`). -/
def versionOf (e : List Char) : Option (List Char) :=
  match e with
  | '/' :: 'v' :: rest =>
    let ds := rest.takeWhile isDigitChar
    if ds.isEmpty then none else some ('/' :: 'v' :: ds)
  | _ => none

/-- Lines 22–28 of `modelscope_z_image.py`: strip a duplicated version
segment off the (already cleaned) base URL.  `b` is the stripped,
`/`-right-trimmed base URL and `e` the endpoint path with its leading
slash. -/
def msResolveBase (b e : List Char) : List Char :=
  match versionOf e with
  | some v =>
    if v <:+ b then rstripSlash (b.take (b.length - v.length)) else b
  | none =>
    if "/v1".data <:+ b ∧ "/v1".data <+: e then
      rstripSlash (b.take (b.length - 3))
    else b

/-- `ModelScopeZImageGenerator.__init__` base-URL computation, from the raw
configuration values (lines 17–31). -/
def msInitBase (cfgBase cfgEndpoint : Option String) : String :=
  let b := rstripSlash
    (pyStripL (pyStrOr cfgBase "https://api-inference.modelscope.cn").data)
  let e0 := pyStripL (pyStrOr cfgEndpoint "/v1/images/generations").data
  let e := if "/".data.isPrefixOf e0 then e0 else '/' :: e0
  String.mk (msResolveBase b e)

/-- The multimodal-generation path suffix checked by
`Wan26T2IGenerator.__init__`. -/
def genSuffixL : List Char :=
  "/services/aigc/multimodal-generation/generation".data

/-- Python `s.split(pat, 1)[0]`: the part before the first occurrence of
`pat` (the whole list when `pat` does not occur). -/
def splitBeforeL (pat : List Char) : List Char → List Char
  | [] => []
  | x :: xs => if pat.isPrefixOf (x :: xs) then [] else x :: splitBeforeL pat xs

/-- Line 91–92 of `wan26_t2i.py`: cut an accidentally configured
multimodal-generation suffix out of the base URL. -/
def wanAfterStrip (p : List Char) : List Char :=
  if genSuffixL <:+: p then rstripSlash (splitBeforeL genSuffixL p) else p

/-- Lines 91–96 of `wan26_t2i.py`: suffix strip, then `/v1` or `/api/v1`
completion, on the already stripped and `/`-right-trimmed base URL. -/
def wanResolve (p : List Char) : List Char :=
  let q := wanAfterStrip p
  if "/api".data <:+ q then q ++ "/v1".data
  else if ¬ "/api/".data <:+: q ∧ "dashscope".data <:+: q then
    q ++ "/api/v1".data
  else q

/-- `Wan26T2IGenerator.__init__` base-URL computation, from the raw
configuration value (lines 89–97). -/
def wanInitBase (cfgBase : Option String) : String :=
  String.mk (wanResolve (rstripSlash
    (pyStripL (pyStrOr cfgBase "https://dashscope.aliyuncs.com/api/v1").data)))

/-! ### Miscellaneous specification-side helpers -/

/-- Whether a character list ends in (ASCII) whitespace. -/
def hasTrailingWS (l : List Char) : Bool :=
  match l.getLast? with
  | some c => isSpaceChar c
  | none => false

/-! ### Concrete scenario data -/

/-- Default-like configuration of the asynchronous generator
(`poll_interval_seconds = 3`, `max_wait_seconds = 300`). -/
def cfgHappy : MSConfig := ⟨"key", "Tongyi-MAI/Z-Image-Turbo", 3, 300⟩

/-- The spec's async happy-path scenario: task created with id `abc`, first
poll `RUNNING`, second poll `SUCCEED` with one image URL, fetch succeeds
with PNG-header bytes. -/
def envHappy : MSEnv where
  createStatus := 200
  createBody := .jobj [("task_id", .jstr "abc")]
  pollStatus := fun _ => 200
  pollBody := fun i =>
    if i = 0 then .jobj [("task_status", .jstr "RUNNING")]
    else .jobj [("task_status", .jstr "SUCCEED"),
                ("output_images", .jarr [.jstr "http://x/img.png"])]
  fetchStatus := fun _ => 200
  fetchBytes := fun u => if u = "http://x/img.png" then [137, 80, 78, 71] else []

/-- The spec's provider-failure scenario: the first poll reports `FAILED`
with message `nsfw content`. -/
def envFailed : MSEnv where
  createStatus := 200
  createBody := .jobj [("task_id", .jstr "abc")]
  pollStatus := fun _ => 200
  pollBody := fun _ =>
    .jobj [("task_status", .jstr "FAILED"), ("message", .jstr "nsfw content")]
  fetchStatus := fun _ => 200
  fetchBytes := fun _ => []

/-- A one-second-wait configuration used to exercise the timeout path. -/
def cfgTiny : MSConfig := ⟨"key", "m", 1, 1⟩

/-- An environment whose polls always answer HTTP 200 with status
`RUNNING`: the task never reaches a terminal state. -/
def envRunning : MSEnv where
  createStatus := 200
  createBody := .jobj [("task_id", .jstr "abc")]
  pollStatus := fun _ => 200
  pollBody := fun _ => .jobj [("task_status", .jstr "RUNNING")]
  fetchStatus := fun _ => 200
  fetchBytes := fun _ => []

/-- A synchronous response whose inline payload is a `data:` string with no
comma. -/
def wanEnvDataNoComma : WanEnv where
  postStatus := 200
  postBody := .jobj [("output", .jobj [("results",
    .jarr [.jobj [("b64_json", .jstr "data:foo")]])])]
  fetchStatus := fun _ => 200
  fetchBytes := fun _ => []

/-- A synchronous response carrying the base64 encoding of the empty byte
string (`""`) as its inline payload. -/
def wanEnvEmptyB64 : WanEnv where
  postStatus := 200
  postBody := .jobj [("output", .jobj [("results",
    .jarr [.jobj [("b64_json", .jstr "")]])])]
  fetchStatus := fun _ => 200
  fetchBytes := fun _ => []

/-- A synchronous response carrying an inline base64 payload `enc` and no
URL, in the `output.results[0].b64_json` slot. -/
def wanEnvB64 (enc : String) : WanEnv where
  postStatus := 200
  postBody := .jobj [("output", .jobj [("results",
    .jarr [.jobj [("b64_json", .jstr enc)]])])]
  fetchStatus := fun _ => 200
  fetchBytes := fun _ => []

/-- A synchronous response carrying both a URL and an (undecodable) inline
payload. -/
def wanEnvBoth : WanEnv where
  postStatus := 200
  postBody := .jobj [("output", .jobj [("results",
    .jarr [.jobj [("url", .jstr "http://u/i.png"), ("b64_json", .jstr "!!!")]])])]
  fetchStatus := fun _ => 200
  fetchBytes := fun u => if u = "http://u/i.png" then [1, 2, 3] else []

/-! ## Theorems -/

/-- If the `choices` branch finds nothing, `extractChoices` returns the
empty reference. -/
theorem extractChoices_eq_empty {ofs : List (String × JVal)}
    (h : choicesMatch ofs = false) : extractChoices ofs = emptyRef := by
  unfold choicesMatch at h
  unfold extractChoices
  cases hc : dictGet ofs "choices"
  case jarr l =>
    cases l
    case nil => rfl
    case cons c cs =>
      rw [hc] at h
      simp at h
      simp [h]
  all_goals rfl

/-- C9: a synchronous response whose extracted inline payload starts with
`data:` but contains no comma makes `generate_image` fail with the
`IndexError` of the `split(",", 1)[1]` prefix-stripping step itself — not a
base64 decode error and not a descriptive provider error. -/
theorem wan_data_uri_no_comma_index_error :
    wanGenerate "key" wanEnvDataNoComma = .pyError "IndexError" := by rfl

/-- C4 counterexample: on the document `{"output": "x"}` (a truthy non-dict
`output`), `_extract_image_url_or_b64` raises an `AttributeError` instead
of returning a reference, so the extractor is not total over arbitrary
documents. -/
theorem extract_attribute_error_on_nondict_output :
    extractRef (.jobj [("output", .jstr "x")]) = .error "AttributeError" := by
  rfl

/-- C4 (amended): for every document whose `output` field evaluates to a
dict (in particular whenever `data` is not a dict or `output` is absent or
falsy), the extractor returns a reference without raising — and when the
document matches neither the `output.results` shape nor the
`output.choices` shape, that reference is the empty one.  Determinism is
definitional: `extractRef` is a pure function of the document. -/
theorem extract_ok_of_dict_output (data : JVal) (ofs : List (String × JVal))
    (h : outputOf data = .jobj ofs) :
    ∃ r, extractRef data = .ok r ∧ (matchesShape data = false → r = emptyRef) := by
  have he : extractRef data =
      (match resultsFirst ofs with
       | some r => .ok r
       | none => .ok (extractChoices ofs)) := by
    unfold extractRef
    rw [h]
  have hms : matchesShape data = ((resultsFirst ofs).isSome || choicesMatch ofs) := by
    unfold matchesShape
    rw [h]
  rw [he, hms]
  cases hr : resultsFirst ofs with
  | some r =>
    refine ⟨r, rfl, fun hm2 => ?_⟩
    simp at hm2
  | none =>
    exact ⟨extractChoices ofs, rfl,
      fun hm2 => extractChoices_eq_empty (by simpa using hm2)⟩

/-- Witness for the amended C4 theorem at a document matching neither
shape. -/
theorem extract_ok_of_dict_output_witness :
    ∃ r, extractRef (.jobj [("output", .jobj [("foo", .jstr "bar")])]) = .ok r ∧
      (matchesShape (.jobj [("output", .jobj [("foo", .jstr "bar")])]) = false →
        r = emptyRef) :=
  extract_ok_of_dict_output (.jobj [("output", .jobj [("foo", .jstr "bar")])])
    [("foo", .jstr "bar")] rfl

/-- C10: whenever extraction yields both a non-empty URL and a non-empty
inline payload, `generate_image` resolves the image exclusively via HTTP
GET of the URL: the result is the fetched bytes for every value of the
inline field, which is never decoded. -/
theorem wan_url_precedes_inline (apiKey : String) (env : WanEnv)
    (ref : ImageRef) (u : String)
    (hk : apiKey.data.isEmpty = false) (hs : env.postStatus = 200)
    (hx : extractRef env.postBody = .ok ref) (hu : ref.url = .jstr u)
    (hne : u.data.isEmpty = false) (_hb : truthy ref.b64 = true)
    (hf : env.fetchStatus u = 200) :
    wanGenerate apiKey env = .success (env.fetchBytes u) := by
  unfold wanGenerate
  rw [hk, hs, hx]
  simp [hu, truthy, hne, hf]

/-- Witness for C10: a response carrying both a URL and an undecodable
inline payload resolves to the fetched bytes. -/
theorem wan_url_precedes_inline_witness :
    wanGenerate "key" wanEnvBoth = .success [1, 2, 3] :=
  wan_url_precedes_inline "key" wanEnvBoth
    ⟨.jstr "http://u/i.png", .jstr "!!!"⟩ "http://u/i.png"
    rfl rfl rfl rfl rfl rfl rfl

/-! ### Base64 lemmas -/

/-- Looking an alphabet character back up recovers its 6-bit value. -/
theorem b64Index_b64Char : ∀ i < 64, b64Index (b64Char i) = some i := by decide

/-- Alphabet characters are never the padding character. -/
theorem b64Char_ne_pad : ∀ i < 64, b64Char i ≠ '=' := by decide

/-- Every character of an encoding of bytes lies in the alphabet or is
padding. -/
theorem b64Encode_chars : ∀ (bs : List Nat), (∀ x ∈ bs, x < 256) →
    ∀ c ∈ b64EncodeChunks bs, (isB64Char c || (c = '=')) = true
  | [], _, c, hc => by simp [b64EncodeChunks] at hc
  | [b0], h, c, hc => by
    have h0 : b0 < 256 := h b0 (by simp)
    simp only [b64EncodeChunks, List.mem_cons, List.not_mem_nil, or_false] at hc
    rcases hc with rfl | rfl | rfl | rfl
    · simp [isB64Char, b64Index_b64Char (b0 / 4) (by omega)]
    · simp [isB64Char, b64Index_b64Char (b0 % 4 * 16) (by omega)]
    · simp
    · simp
  | [b0, b1], h, c, hc => by
    have h0 : b0 < 256 := h b0 (by simp)
    have h1 : b1 < 256 := h b1 (by simp)
    simp only [b64EncodeChunks, List.mem_cons, List.not_mem_nil, or_false] at hc
    rcases hc with rfl | rfl | rfl | rfl
    · simp [isB64Char, b64Index_b64Char (b0 / 4) (by omega)]
    · simp [isB64Char, b64Index_b64Char (b0 % 4 * 16 + b1 / 16) (by omega)]
    · simp [isB64Char, b64Index_b64Char (b1 % 16 * 4) (by omega)]
    · simp
  | b0 :: b1 :: b2 :: rest, h, c, hc => by
    have h0 : b0 < 256 := h b0 (by simp)
    have h1 : b1 < 256 := h b1 (by simp)
    have h2 : b2 < 256 := h b2 (by simp)
    rw [b64EncodeChunks] at hc
    simp only [List.mem_cons] at hc
    rcases hc with rfl | rfl | rfl | rfl | hmem
    · simp [isB64Char, b64Index_b64Char (b0 / 4) (by omega)]
    · simp [isB64Char, b64Index_b64Char (b0 % 4 * 16 + b1 / 16) (by omega)]
    · simp [isB64Char, b64Index_b64Char (b1 % 16 * 4 + b2 / 64) (by omega)]
    · simp [isB64Char, b64Index_b64Char (b2 % 64) (by omega)]
    · exact b64Encode_chars rest (fun x hx => h x (by simp [hx])) c hmem

/-- Decoding inverts encoding: the `b64decode(b64encode(b)) == b` law. -/
theorem b64_decode_encode : ∀ (bs : List Nat), (∀ x ∈ bs, x < 256) →
    b64DecodeChunks (b64EncodeChunks bs) = .ok bs
  | [], _ => rfl
  | [b0], h => by
    have h0 : b0 < 256 := h b0 (by simp)
    have e0 := b64Index_b64Char (b0 / 4) (by omega)
    have e1 := b64Index_b64Char (b0 % 4 * 16) (by omega)
    simp [b64EncodeChunks, b64DecodeChunks, e0, e1]
    omega
  | [b0, b1], h => by
    have h0 : b0 < 256 := h b0 (by simp)
    have h1 : b1 < 256 := h b1 (by simp)
    have e0 := b64Index_b64Char (b0 / 4) (by omega)
    have e1 := b64Index_b64Char (b0 % 4 * 16 + b1 / 16) (by omega)
    have e2 := b64Index_b64Char (b1 % 16 * 4) (by omega)
    have n2 := b64Char_ne_pad (b1 % 16 * 4) (by omega)
    simp [b64EncodeChunks, b64DecodeChunks, e0, e1, e2, n2]
    omega
  | b0 :: b1 :: b2 :: rest, h => by
    have h0 : b0 < 256 := h b0 (by simp)
    have h1 : b1 < 256 := h b1 (by simp)
    have h2 : b2 < 256 := h b2 (by simp)
    have e0 := b64Index_b64Char (b0 / 4) (by omega)
    have e1 := b64Index_b64Char (b0 % 4 * 16 + b1 / 16) (by omega)
    have e2 := b64Index_b64Char (b1 % 16 * 4 + b2 / 64) (by omega)
    have e3 := b64Index_b64Char (b2 % 64) (by omega)
    have n2 := b64Char_ne_pad (b1 % 16 * 4 + b2 / 64) (by omega)
    have n3 := b64Char_ne_pad (b2 % 64) (by omega)
    have ih := b64_decode_encode rest (fun x hx => h x (by simp [hx]))
    rw [b64EncodeChunks, b64DecodeChunks]
    simp [e0, e1, e2, e3, n2, n3, ih]
    omega

/-- Encoding a nonempty byte list yields a nonempty character list. -/
theorem b64Encode_ne_nil : ∀ (bs : List Nat), bs ≠ [] → b64EncodeChunks bs ≠ []
  | [], h => absurd rfl h
  | [_], _ => by simp [b64EncodeChunks]
  | [_, _], _ => by simp [b64EncodeChunks]
  | _ :: _ :: _ :: _, _ => by simp [b64EncodeChunks]

/-- An encoding never starts with `data:` (the colon is outside the
alphabet). -/
theorem b64Encode_not_data_uri (bs : List Nat) (h : ∀ x ∈ bs, x < 256) :
    "data:".data.isPrefixOf (b64EncodeChunks bs) = false := by
  by_contra hb
  rw [Bool.not_eq_false, List.isPrefixOf_iff_prefix] at hb
  have hcolon : ':' ∈ b64EncodeChunks bs := hb.subset (by decide)
  have := b64Encode_chars bs h ':' hcolon
  simp [isB64Char, b64Index] at this
  revert this
  decide

/-- Extraction on the inline-payload response shape: no URL, the payload in
the `b64` slot. -/
theorem extractRef_wanEnvB64 (enc : String) (h : enc.data.isEmpty = false) :
    extractRef (wanEnvB64 enc).postBody = .ok ⟨.jnull, .jstr enc⟩ := by
  simp [wanEnvB64, extractRef, outputOf, resultsFirst, dictGet, pyOr, truthy,
    List.lookup, h]

/-- C3 counterexample: for the empty byte string, the inline payload is the
empty string, which is falsy, so the synchronous generator reports a
missing image result instead of returning `b""`. -/
theorem wan_inline_empty_payload_counterexample :
    wanGenerate "key" (wanEnvB64 (String.mk (b64EncodeChunks []))) = .noImage := by
  rfl

/-- C3 (amended): for every nonempty byte string `b`, a synchronous
response carrying `base64(b)` as the inline field and no URL — with or
without a `data:...;base64,` prefix — resolves to exactly `b`. -/
theorem wan_inline_roundtrip (bs : List Nat) (h : ∀ x ∈ bs, x < 256)
    (hne : bs ≠ []) :
    wanGenerate "key" (wanEnvB64 (String.mk (b64EncodeChunks bs))) =
      .success bs ∧
    wanGenerate "key"
      (wanEnvB64 (String.mk ("data:image/png;base64,".data ++ b64EncodeChunks bs))) =
      .success bs := by
  have hchars := b64Encode_chars bs h
  have hdecode : pyB64Decode (String.mk (b64EncodeChunks bs)) = .ok bs := by
    unfold pyB64Decode
    rw [show (String.mk (b64EncodeChunks bs)).data = b64EncodeChunks bs from rfl]
    rw [List.filter_eq_self.mpr (by
      intro a ha
      simpa using hchars a ha)]
    exact b64_decode_encode bs h
  have hnn : (b64EncodeChunks bs).isEmpty = false := by
    cases he : b64EncodeChunks bs with
    | nil => exact absurd he (b64Encode_ne_nil bs hne)
    | cons c cs => rfl
  constructor
  · have hx := extractRef_wanEnvB64 (String.mk (b64EncodeChunks bs)) hnn
    unfold wanGenerate
    rw [hx]
    simp only [truthy, hnn, Bool.not_false, wanEnvB64, String.data]
    rw [b64Encode_not_data_uri bs h]
    simp [hdecode]
  · have hnn2 : ("data:image/png;base64,".data ++ b64EncodeChunks bs).isEmpty = false := by
      rfl
    have hx := extractRef_wanEnvB64
      (String.mk ("data:image/png;base64,".data ++ b64EncodeChunks bs)) hnn2
    unfold wanGenerate
    rw [hx]
    simp only [truthy, hnn2, Bool.not_false, wanEnvB64, String.data]
    have hpre : "data:".data.isPrefixOf
        ("data:image/png;base64,".data ++ b64EncodeChunks bs) = true := by
      rw [List.isPrefixOf_iff_prefix]
      exact List.IsPrefix.trans (by decide) (List.prefix_append _ _)
    rw [hpre]
    have hcomma : afterFirstComma ("data:image/png;base64,".data ++ b64EncodeChunks bs) =
        some (b64EncodeChunks bs) := by
      simp [afterFirstComma]
    rw [hcomma]
    simp [hdecode]

/-- Witness for the amended C3 theorem: the spec's `aGVsbG8=` scenario
yields the bytes of `hello`. -/
theorem wan_inline_roundtrip_witness :
    wanGenerate "key" (wanEnvB64 "aGVsbG8=") = .success [104, 101, 108, 108, 111] :=
  (wan_inline_roundtrip [104, 101, 108, 108, 111] (by decide) (by decide)).1

/-! ### Whitespace-stripping lemmas -/

/-- The head surviving a `dropWhile` fails the predicate. -/
theorem head?_dropWhile_false {p : Char → Bool} :
    ∀ {l : List Char} {c : Char}, (l.dropWhile p).head? = some c → p c = false := by
  intro l
  induction l with
  | nil => intro c h; simp [List.dropWhile] at h
  | cons x xs ih =>
    intro c h
    rw [List.dropWhile_cons] at h
    by_cases hx : p x
    · rw [if_pos hx] at h
      exact ih h
    · rw [if_neg hx] at h
      simp at h
      subst h
      simpa using hx

/-- A right-trimmed list does not end in whitespace. -/
theorem hasTrailingWS_rstrip (l : List Char) : hasTrailingWS (pyRstripL l) = false := by
  unfold hasTrailingWS pyRstripL
  rw [List.getLast?_reverse]
  cases hh : (l.reverse.dropWhile isSpaceChar).head? with
  | none => rfl
  | some c => exact head?_dropWhile_false hh

/-- A trimmed list does not end in whitespace. -/
theorem hasTrailingWS_strip (l : List Char) : hasTrailingWS (pyStripL l) = false :=
  hasTrailingWS_rstrip (l.dropWhile isSpaceChar)

/-- `dropWhile` never lengthens a list. -/
theorem length_dropWhile_le (p : Char → Bool) :
    ∀ l : List Char, (l.dropWhile p).length ≤ l.length := by
  intro l
  induction l with
  | nil => exact Nat.le_refl _
  | cons x xs ih =>
    rw [List.dropWhile_cons]
    by_cases hx : p x
    · rw [if_pos hx]
      exact le_trans ih (Nat.le_succ _)
    · rw [if_neg hx]

/-- Right-trimming never lengthens a list. -/
theorem rstrip_length_le (l : List Char) : (pyRstripL l).length ≤ l.length := by
  unfold pyRstripL
  rw [List.length_reverse]
  have := length_dropWhile_le isSpaceChar l.reverse
  simpa using this

/-- C6: `normalizePrompt` returns a string of length at most
`max(configuredMax, 100)` with no trailing whitespace, for every prompt and
every configured maximum. -/
theorem normalize_prompt_bound (p : String) (m : Int) :
    ((normalizePrompt p m).data.length : Int) ≤ max m 100 ∧
    hasTrailingWS (normalizePrompt p m).data = false := by
  unfold normalizePrompt
  have hmax : (if m < 100 then (100 : Int) else m) = max m 100 := by
    rcases lt_or_le m 100 with h | h
    · rw [if_pos h, max_eq_right h.le]
    · rw [if_neg (not_lt.mpr h), max_eq_left h]
  rw [hmax]
  by_cases hlen : ((pyStripL p.data).length : Int) ≤ max m 100
  · rw [if_pos hlen]
    exact ⟨hlen, hasTrailingWS_strip p.data⟩
  · rw [if_neg hlen]
    refine ⟨?_, hasTrailingWS_rstrip _⟩
    have h1 : (pyRstripL ((pyStripL p.data).take (max m 100).toNat)).length ≤
        (max m 100).toNat :=
      le_trans (rstrip_length_le _) (List.length_take_le _ _)
    have h2 : (((max m 100).toNat : Int)) = max m 100 :=
      Int.toNat_of_nonneg (le_trans (by norm_num) (le_max_right m 100))
    calc ((pyRstripL ((pyStripL p.data).take (max m 100).toNat)).length : Int)
        ≤ (((max m 100).toNat : Int)) := by exact_mod_cast h1
      _ = max m 100 := h2

/-! ### Character-class and list lemmas for `_normalize_size` -/

/-- Whitespace characters are not digits. -/
theorem space_not_digit {c : Char} (h : isSpaceChar c = true) :
    isDigitChar c = false := by
  simp [isSpaceChar] at h
  rcases h with ((((rfl | rfl) | rfl) | rfl) | rfl) | rfl <;> decide

/-- Digits are not whitespace. -/
theorem digit_not_space {c : Char} (h : isDigitChar c = true) :
    isSpaceChar c = false := by
  cases hs : isSpaceChar c
  · rfl
  · rw [space_not_digit hs] at h
    exact absurd h (by simp)

/-- The digit bounds of `isDigitChar`, in `Nat` form. -/
theorem digit_toNat_bounds {c : Char} (h : isDigitChar c = true) :
    48 ≤ c.toNat ∧ c.toNat ≤ 57 := by
  simp only [isDigitChar, Bool.and_eq_true, decide_eq_true_eq] at h
  exact ⟨h.1, h.2⟩

/-- Lowering fixes digit characters. -/
theorem lowerChar_digit {c : Char} (h : isDigitChar c = true) : lowerChar c = c := by
  have hb := digit_toNat_bounds h
  unfold lowerChar
  rw [if_neg]
  intro hAZ
  simp only [Bool.and_eq_true, decide_eq_true_eq] at hAZ
  have h65 : (65 : Nat) ≤ c.toNat := hAZ.1
  omega

/-- The delimiter replacement fixes digit characters. -/
theorem starChar_digit {c : Char} (h : isDigitChar c = true) : starChar c = c := by
  have hb := digit_toNat_bounds h
  unfold starChar
  rw [if_neg, if_neg]
  · intro e
    rw [e] at hb
    exact absurd hb (by decide)
  · intro e
    rw [e] at hb
    exact absurd hb (by decide)

/-- Digit characters are not the canonical separator. -/
theorem digit_ne_star {c : Char} (h : isDigitChar c = true) : c ≠ '*' := by
  have hb := digit_toNat_bounds h
  intro e
  rw [e] at hb
  exact absurd hb (by decide)

/-- `dropWhile` is the identity when no element satisfies the predicate. -/
theorem dropWhile_eq_self_of {p : Char → Bool} {l : List Char}
    (h : ∀ c ∈ l, p c = false) : l.dropWhile p = l := by
  cases l with
  | nil => rfl
  | cons x xs =>
    rw [List.dropWhile_cons, if_neg]
    simp [h x (by simp)]

/-- Stripping is the identity on whitespace-free lists. -/
theorem pyStripL_eq_self {l : List Char}
    (h : ∀ c ∈ l, isSpaceChar c = false) : pyStripL l = l := by
  unfold pyStripL
  rw [dropWhile_eq_self_of h,
      dropWhile_eq_self_of (fun c hc => h c (by simpa using hc)),
      List.reverse_reverse]

/-- `map` is the identity when the function fixes every element. -/
theorem map_id_of {f : Char → Char} : ∀ {l : List Char},
    (∀ c ∈ l, f c = c) → l.map f = l := by
  intro l
  induction l with
  | nil => intro h; rfl
  | cons x xs ih =>
    intro h
    rw [List.map_cons, h x (by simp), ih (fun c hc => h c (by simp [hc]))]

/-- `pySplitChar` always returns at least one piece. -/
theorem pySplitChar_ne_nil (c : Char) (l : List Char) : pySplitChar c l ≠ [] := by
  cases l with
  | nil => simp [pySplitChar]
  | cons x xs =>
    rw [pySplitChar]
    rcases pySplitChar c xs with _ | ⟨h, t⟩ <;> by_cases hx : x = c <;> simp [hx]

/-- Splitting a separator-free list yields that list as the one piece. -/
theorem pySplitChar_no_sep {c : Char} : ∀ {l : List Char},
    (∀ d ∈ l, d ≠ c) → pySplitChar c l = [l] := by
  intro l
  induction l with
  | nil => intro _; rfl
  | cons x xs ih =>
    intro h
    rw [pySplitChar]
    rw [ih (fun d hd => h d (by simp [hd]))]
    simp [h x (by simp)]

/-- Splitting around one separator occurrence separates the two sides. -/
theorem pySplitChar_append {c : Char} : ∀ (l1 l2 : List Char),
    (∀ d ∈ l1, d ≠ c) →
    pySplitChar c (l1 ++ c :: l2) = l1 :: pySplitChar c l2 := by
  intro l1
  induction l1 with
  | nil =>
    intro l2 _
    rw [List.nil_append]
    rw [pySplitChar]
    cases hq : pySplitChar c l2 with
    | nil => exact absurd hq (pySplitChar_ne_nil c l2)
    | cons h t => simp [hq]
  | cons x xs ih =>
    intro l2 h
    rw [List.cons_append]
    rw [pySplitChar]
    rw [ih l2 (fun d hd => h d (by simp [hd]))]
    simp [h x (by simp)]

/-- The processed pieces of `"{dw}{d}{dh}"` for digit strings `dw`, `dh` and
a delimiter `d ∈ {x, X, ×}` are exactly `[dw, dh]`. -/
theorem sizeParts_delim (dw dh : List Char) (d : Char)
    (hw : ∀ ch ∈ dw, isDigitChar ch = true) (hh : ∀ ch ∈ dh, isDigitChar ch = true)
    (hwne : dw ≠ []) (hhne : dh ≠ [])
    (hd : d = 'x' ∨ d = 'X' ∨ d = '×') :
    sizeParts (String.mk (dw ++ d :: dh)) = [dw, dh] := by
  unfold sizeParts
  rw [show (String.mk (dw ++ d :: dh)).data = dw ++ d :: dh from rfl]
  have hnospace : ∀ ch ∈ dw ++ d :: dh, isSpaceChar ch = false := by
    intro ch hch
    rcases List.mem_append.mp hch with hmem | hmem
    · exact digit_not_space (hw ch hmem)
    · rcases List.mem_cons.mp hmem with rfl | hmem2
      · rcases hd with rfl | rfl | rfl <;> decide
      · exact digit_not_space (hh ch hmem2)
  rw [pyStripL_eq_self hnospace]
  rw [List.map_append, List.map_cons, List.map_append, List.map_cons]
  rw [map_id_of (fun ch hch => lowerChar_digit (hw ch hch))]
  rw [map_id_of (fun ch hch =>
        starChar_digit (hw ch (by simpa using hch)))]
  rw [map_id_of (fun ch hch => lowerChar_digit (hh ch hch))]
  rw [map_id_of (fun ch hch =>
        starChar_digit (hh ch (by simpa using hch)))]
  have hstar : starChar (lowerChar d) = '*' := by
    rcases hd with rfl | rfl | rfl <;> decide
  rw [hstar]
  rw [pySplitChar_append dw dh (fun ch hch => digit_ne_star (hw ch hch))]
  rw [pySplitChar_no_sep (fun ch hch => digit_ne_star (hh ch hch))]
  have hw0 : dw.isEmpty = false := by
    cases dw
    · exact absurd rfl hwne
    · rfl
  have hh0 : dh.isEmpty = false := by
    cases dh
    · exact absurd rfl hhne
    · rfl
  simp [List.filter, hw0, hh0]

/-- C5: for every valid size string of two (nonempty ASCII-digit) integer
components joined by `x`, `X`, or `×`, `normalizeSize` returns the same
canonical `"{w}*{h}"` string (the delimiter does not influence the result,
which renders the parsed integers around `*`); for every size string
failing the two-integer-pieces guard it falls back to the aspect-ratio
lookup, as it does when no size is given; and for every aspect ratio
outside the table the fallback is `"1280*1280"`.  Totality is
definitional: `normalizeSize` is a Lean function. -/
theorem normalize_size_spec :
    (∀ (dw dh : List Char) (d : Char) (ar : String),
      (∀ ch ∈ dw, isDigitChar ch = true) → (∀ ch ∈ dh, isDigitChar ch = true) →
      dw ≠ [] → dh ≠ [] → (d = 'x' ∨ d = 'X' ∨ d = '×') →
      normalizeSize (some (String.mk (dw ++ d :: dh))) ar =
        String.mk (pyShowNat (pyParseNat dw) ++ '*' :: pyShowNat (pyParseNat dh))) ∧
    (∀ (s ar : String), sizePartsGuard s = false →
      normalizeSize (some s) ar = aspectRatioToSize ar) ∧
    (∀ ar : String, normalizeSize none ar = aspectRatioToSize ar) ∧
    (∀ ar : String, aspectRatioTable.lookup ar = none →
      aspectRatioToSize ar = "1280*1280") := by
  refine ⟨?_, ?_, fun _ => rfl, ?_⟩
  · intro dw dh d ar hw hh hwne hhne hd
    rw [normalizeSize]
    have hne : (String.mk (dw ++ d :: dh)).data.isEmpty = false := by
      rw [show (String.mk (dw ++ d :: dh)).data = dw ++ d :: dh from rfl]
      cases dw
      · rfl
      · rfl
    rw [hne]
    rw [if_neg Bool.false_ne_true]
    rw [sizeParts_delim dw dh d hw hh hwne hhne hd]
    have hgw : pyIsDigit dw = true := by
      have hw0 : dw.isEmpty = false := by
        cases dw
        · exact absurd rfl hwne
        · rfl
      simp [pyIsDigit, hw0, List.all_eq_true]
      exact hw
    have hgh : pyIsDigit dh = true := by
      have hh0 : dh.isEmpty = false := by
        cases dh
        · exact absurd rfl hhne
        · rfl
      simp [pyIsDigit, hh0, List.all_eq_true]
      exact hh
    simp [hgw, hgh]
  · intro s ar hg
    unfold sizePartsGuard at hg
    rw [normalizeSize]
    by_cases he : s.data.isEmpty = true
    · rw [if_pos he]
    · rw [if_neg he]
      rcases hp : sizeParts s with _ | ⟨p, _ | ⟨q, _ | _⟩⟩
      · simp
      · simp
      · rw [hp] at hg
        simp at hg ⊢
        intro h1 h2
        rw [hg h1] at h2
        exact absurd h2 (by simp)
      · simp
  · intro ar h
    unfold aspectRatioToSize
    rw [h]

/-- Witness for C5: `"1280×720"` canonicalizes to `"1280*720"`, and the
malformed `"bogus"` with unknown ratio `"7:7"` falls back to
`"1280*1280"`. -/
theorem normalize_size_spec_witness :
    normalizeSize (some "1280×720") "1:1" = "1280*720" ∧
    normalizeSize (some "bogus") "7:7" = "1280*1280" := by
  constructor
  · exact normalize_size_spec.1 ['1', '2', '8', '0'] ['7', '2', '0'] '×' "1:1"
      (by decide) (by decide) (by decide) (by decide) (Or.inr (Or.inr rfl))
  · exact (normalize_size_spec.2.1 "bogus" "7:7" (by decide)).trans
      (normalize_size_spec.2.2.2 "7:7" (by decide))

/-! ### Asynchronous generator theorems -/

/-- C7 counterexample: the failure message is not drawn from the first
*present* of the `message`/`error`/`output` fields — a present-but-empty
`message` is skipped (Python's `or` chain selects the first *truthy*
value), so the body `{"task_status":"FAILED","message":"","error":"boom"}`
produces the message `boom`, not the (present) empty `message`. -/
theorem ms_fail_msg_skips_empty_message :
    dictGet [("task_status", JVal.jstr "FAILED"), ("message", JVal.jstr ""),
      ("error", JVal.jstr "boom")] "message" = .jstr "" ∧
    msFailMsg [("task_status", JVal.jstr "FAILED"), ("message", JVal.jstr ""),
      ("error", JVal.jstr "boom")] = .jstr "boom" :=
  ⟨rfl, rfl⟩

/-- C7 (amended): whenever the first status poll answers HTTP 200 with a
task status that upper-cases to `FAILED` (so matching is
case-insensitive), `generate_image` fails immediately with
`providerFailure` carrying the message drawn from the
`message`/`error`/`output` fields — first *truthy* one wins (a
present-but-falsy field is skipped), defaulting to the generic
unknown-error string when none is truthy (see `msFailMsg`). -/
theorem ms_provider_failure (cfg : MSConfig) (env : MSEnv) (modelArg : Option String)
    (cfs fs : List (String × JVal)) (s0 : String)
    (hkey : cfg.apiKey.data.isEmpty = false)
    (hmodel : (pyStrip (match modelArg with
      | some m => if m.data.isEmpty then cfg.modelCfg else m
      | none => cfg.modelCfg)).data.isEmpty = false)
    (hW : 0 ≤ cfg.maxWait)
    (hcs : env.createStatus = 200)
    (hcb : pyOr env.createBody (.jobj []) = .jobj cfs)
    (htid : truthy (pyOr (dictGet cfs "task_id") (dictGet cfs "id")) = true)
    (hps : env.pollStatus 0 = 200)
    (hpb : pyOr (env.pollBody 0) (.jobj []) = .jobj fs)
    (hst : pyOr (dictGet fs "task_status")
      (pyOr (dictGet fs "status") (.jstr "")) = .jstr s0)
    (hfail : pyUpperStr s0 = "FAILED") :
    msGenerate cfg env modelArg = some (.providerFailure (msFailMsg fs)) := by
  unfold msGenerate
  dsimp only
  rw [hkey, hmodel, hcs]
  simp only [Bool.false_eq_true, if_false, ne_eq, not_true_eq_false, ite_false]
  rw [hcb]
  dsimp only
  rw [htid, if_pos rfl]
  have hfuel : msFuel cfg = ((max 0 ⌈cfg.maxWait / cfg.pollInterval⌉).toNat + 1) + 1 :=
    rfl
  rw [hfuel]
  rw [msPollLoop]
  have c0 : ¬ (cfg.maxWait < ((0 : ℕ) : ℚ) * cfg.pollInterval) := by
    push_cast
    simpa using not_lt.mpr hW
  rw [if_neg c0, hps]
  simp only [ne_eq, not_true_eq_false, ite_false]
  rw [hpb]
  dsimp only
  rw [hst]
  dsimp only
  rw [hfail]
  simp

/-- Witness for C7: the spec's `{"task_status":"FAILED","message":"nsfw
content"}` poll produces a provider failure carrying `nsfw content`. -/
theorem ms_provider_failure_witness :
    msGenerate cfgHappy envFailed none =
      some (.providerFailure (.jstr "nsfw content")) :=
  ms_provider_failure cfgHappy envFailed none
    [("task_id", .jstr "abc")]
    [("task_status", .jstr "FAILED"), ("message", .jstr "nsfw content")]
    "FAILED" rfl rfl (by norm_num [cfgHappy]) rfl rfl rfl rfl rfl rfl rfl

/-- C1: the async happy path.  If the creation POST answers HTTP 200 with
`{"task_id":"abc"}`, the first poll answers `RUNNING`, the second poll
answers `SUCCEED` with one image URL, and the GET of that URL answers
HTTP 200 with bytes `bs`, then `generate_image` returns exactly `bs`. -/
theorem ms_happy_path (cfg : MSConfig) (env : MSEnv) (modelArg : Option String)
    (bs : List Nat)
    (hkey : cfg.apiKey.data.isEmpty = false)
    (hmodel : (pyStrip (match modelArg with
      | some m => if m.data.isEmpty then cfg.modelCfg else m
      | none => cfg.modelCfg)).data.isEmpty = false)
    (hW : 0 ≤ cfg.maxWait) (hpW : cfg.pollInterval ≤ cfg.maxWait)
    (hcs : env.createStatus = 200)
    (hcb : env.createBody = .jobj [("task_id", .jstr "abc")])
    (hp0s : env.pollStatus 0 = 200)
    (hp0b : env.pollBody 0 = .jobj [("task_status", .jstr "RUNNING")])
    (hp1s : env.pollStatus 1 = 200)
    (hp1b : env.pollBody 1 = .jobj [("task_status", .jstr "SUCCEED"),
      ("output_images", .jarr [.jstr "http://x/img.png"])])
    (hfs : env.fetchStatus "http://x/img.png" = 200)
    (hfb : env.fetchBytes "http://x/img.png" = bs) :
    msGenerate cfg env modelArg = some (.success bs) := by
  unfold msGenerate
  dsimp only
  rw [hkey, hmodel, hcs]
  simp only [Bool.false_eq_true, if_false, ne_eq, not_true_eq_false, ite_false]
  rw [hcb]
  rw [show pyOr (JVal.jobj [("task_id", JVal.jstr "abc")]) (.jobj []) =
      JVal.jobj [("task_id", JVal.jstr "abc")] from rfl]
  dsimp only
  rw [show truthy (pyOr (dictGet [("task_id", JVal.jstr "abc")] "task_id")
      (dictGet [("task_id", JVal.jstr "abc")] "id")) = true from rfl, if_pos rfl]
  have hfuel : msFuel cfg = ((max 0 ⌈cfg.maxWait / cfg.pollInterval⌉).toNat + 1) + 1 :=
    rfl
  rw [hfuel, msPollLoop]
  have c0 : ¬ (cfg.maxWait < ((0 : ℕ) : ℚ) * cfg.pollInterval) := by
    push_cast
    simpa using not_lt.mpr hW
  rw [if_neg c0, hp0s]
  simp only [ne_eq, not_true_eq_false, ite_false]
  rw [hp0b]
  rw [show pyOr (JVal.jobj [("task_status", JVal.jstr "RUNNING")]) (.jobj []) =
      JVal.jobj [("task_status", JVal.jstr "RUNNING")] from rfl]
  dsimp only
  rw [show pyOr (dictGet [("task_status", JVal.jstr "RUNNING")] "task_status")
      (pyOr (dictGet [("task_status", JVal.jstr "RUNNING")] "status") (.jstr "")) =
      JVal.jstr "RUNNING" from rfl]
  dsimp only
  rw [show pyUpperStr "RUNNING" = "RUNNING" from rfl]
  rw [if_neg (by decide), if_neg (by decide)]
  rw [msPollLoop]
  have c1 : ¬ (cfg.maxWait < ((0 + 1 : ℕ) : ℚ) * cfg.pollInterval) := by
    push_cast
    simpa using not_lt.mpr hpW
  rw [if_neg c1, hp1s]
  simp only [ne_eq, not_true_eq_false, ite_false]
  rw [hp1b]
  rw [show pyOr (JVal.jobj [("task_status", JVal.jstr "SUCCEED"),
        ("output_images", JVal.jarr [JVal.jstr "http://x/img.png"])]) (.jobj []) =
      JVal.jobj [("task_status", JVal.jstr "SUCCEED"),
        ("output_images", JVal.jarr [JVal.jstr "http://x/img.png"])] from rfl]
  dsimp only
  rw [show pyOr (dictGet [("task_status", JVal.jstr "SUCCEED"),
        ("output_images", JVal.jarr [JVal.jstr "http://x/img.png"])] "task_status")
      (pyOr (dictGet [("task_status", JVal.jstr "SUCCEED"),
        ("output_images", JVal.jarr [JVal.jstr "http://x/img.png"])] "status")
        (.jstr "")) = JVal.jstr "SUCCEED" from rfl]
  dsimp only
  rw [show pyUpperStr "SUCCEED" = "SUCCEED" from rfl]
  rw [if_pos rfl]
  rw [show pyOr (dictGet [("task_status", JVal.jstr "SUCCEED"),
        ("output_images", JVal.jarr [JVal.jstr "http://x/img.png"])] "output_images")
      (.jarr []) = JVal.jarr [JVal.jstr "http://x/img.png"] from rfl]
  dsimp only
  rw [show (pyStrip "http://x/img.png").data.isEmpty = false from rfl]
  simp only [Bool.false_eq_true, if_false]
  rw [hfs]
  simp only [ne_eq, not_true_eq_false, ite_false]
  rw [hfb]

/-- Witness for C1 at the default-like configuration (3s poll interval,
300s budget) and the spec's concrete scenario environment. -/
theorem ms_happy_path_witness :
    msGenerate cfgHappy envHappy none = some (.success [137, 80, 78, 71]) :=
  ms_happy_path cfgHappy envHappy none [137, 80, 78, 71]
    rfl rfl (by norm_num [cfgHappy]) (by norm_num [cfgHappy])
    rfl rfl rfl rfl rfl rfl rfl rfl

/-- Polling-loop timeout, by induction on the fuel: at a loop entry
`(fuel, i)` with `⌈W/p⌉ + 2 ≤ fuel + i` and `i ≤ ⌈W/p⌉ + 1`, if no poll
ever reports a terminal status (and all polls answer HTTP 200), the loop
reaches the deadline check with `time > deadline` and produces the
timeout outcome. -/
theorem msPollLoop_timeout_aux (cfg : MSConfig) (env : MSEnv)
    (hp : 0 < cfg.pollInterval)
    (hpoll : ∀ i, env.pollStatus i = 200)
    (hstatus : ∀ i, ∃ fs s0, pyOr (env.pollBody i) (.jobj []) = .jobj fs ∧
      pyOr (dictGet fs "task_status") (pyOr (dictGet fs "status") (.jstr "")) =
        .jstr s0 ∧
      pyUpperStr s0 ≠ "SUCCEED" ∧ pyUpperStr s0 ≠ "FAILED") :
    ∀ (fuel i : ℕ) (last : Option String),
      ⌈cfg.maxWait / cfg.pollInterval⌉ + 2 ≤ (fuel : ℤ) + (i : ℤ) →
      (i : ℤ) ≤ ⌈cfg.maxWait / cfg.pollInterval⌉ + 1 →
      ∃ ls, msPollLoop cfg env fuel i last =
        some (.timeoutError cfg.maxWait ls) := by
  intro fuel
  induction fuel with
  | zero =>
    intro i last h1 h2
    exfalso
    push_cast at h1
    omega
  | succ fuel ih =>
    intro i last h1 h2
    rw [msPollLoop]
    by_cases hc : cfg.maxWait < (i : ℚ) * cfg.pollInterval
    · rw [if_pos hc]
      exact ⟨last, rfl⟩
    · rw [if_neg hc]
      rw [hpoll i]
      simp only [ne_eq, not_true_eq_false, ite_false]
      obtain ⟨fs, s0, hb, hs, hns, hnf⟩ := hstatus i
      rw [hb]
      dsimp only
      rw [hs]
      dsimp only
      rw [if_neg hns, if_neg hnf]
      have hile : (i : ℤ) ≤ ⌈cfg.maxWait / cfg.pollInterval⌉ := by
        have hle : (i : ℚ) * cfg.pollInterval ≤ cfg.maxWait := not_lt.mp hc
        have hdiv : (i : ℚ) ≤ cfg.maxWait / cfg.pollInterval :=
          (le_div_iff₀ hp).mpr hle
        have hceil : ((i : ℤ) : ℚ) ≤ ((⌈cfg.maxWait / cfg.pollInterval⌉ : ℤ) : ℚ) := by
          push_cast
          exact le_trans hdiv (Int.le_ceil _)
        exact_mod_cast hceil
      apply ih (i + 1)
      · push_cast
        push_cast at h1
        omega
      · push_cast
        omega

/-- C2: when the task status never reaches a terminal value and every poll
answers HTTP 200, the polling loop of the asynchronous `generate_image`
needs at most `⌈maxWait / pollInterval⌉ + 2` loop entries — i.e. at most
`⌈maxWait / pollInterval⌉ + 1` iterations that perform a status poll, plus
the final deadline check — and then produces the timeout error carrying
the configured wait budget and the last observed status; `generate_image`
returns that timeout error rather than looping forever. -/
theorem ms_poll_timeout (cfg : MSConfig) (env : MSEnv) (modelArg : Option String)
    (cfs : List (String × JVal))
    (hkey : cfg.apiKey.data.isEmpty = false)
    (hmodel : (pyStrip (match modelArg with
      | some m => if m.data.isEmpty then cfg.modelCfg else m
      | none => cfg.modelCfg)).data.isEmpty = false)
    (hp : 0 < cfg.pollInterval) (hW : 0 ≤ cfg.maxWait)
    (hcs : env.createStatus = 200)
    (hcb : pyOr env.createBody (.jobj []) = .jobj cfs)
    (htid : truthy (pyOr (dictGet cfs "task_id") (dictGet cfs "id")) = true)
    (hpoll : ∀ i, env.pollStatus i = 200)
    (hstatus : ∀ i, ∃ fs s0, pyOr (env.pollBody i) (.jobj []) = .jobj fs ∧
      pyOr (dictGet fs "task_status") (pyOr (dictGet fs "status") (.jstr "")) =
        .jstr s0 ∧
      pyUpperStr s0 ≠ "SUCCEED" ∧ pyUpperStr s0 ≠ "FAILED") :
    ∃ ls, msGenerate cfg env modelArg = some (.timeoutError cfg.maxWait ls) ∧
      msPollLoop cfg env (⌈cfg.maxWait / cfg.pollInterval⌉.toNat + 2) 0 none =
        some (.timeoutError cfg.maxWait ls) := by
  have hc0 : 0 ≤ ⌈cfg.maxWait / cfg.pollInterval⌉ :=
    Int.ceil_nonneg (div_nonneg hW hp.le)
  have hfe : msFuel cfg = ⌈cfg.maxWait / cfg.pollInterval⌉.toNat + 2 := by
    unfold msFuel
    rw [max_eq_right hc0]
  obtain ⟨ls, hls⟩ := msPollLoop_timeout_aux cfg env hp hpoll hstatus
    (⌈cfg.maxWait / cfg.pollInterval⌉.toNat + 2) 0 none
    (by push_cast; omega) (by push_cast; omega)
  refine ⟨ls, ?_, hls⟩
  unfold msGenerate
  dsimp only
  rw [hkey, hmodel, hcs]
  simp only [Bool.false_eq_true, if_false, ne_eq, not_true_eq_false, ite_false]
  rw [hcb]
  dsimp only
  rw [htid, if_pos rfl, hfe, hls]

/-- Witness for C2 at `pollInterval = 1`, `maxWait = 1` against an
environment whose polls always answer `RUNNING`. -/
theorem ms_poll_timeout_witness :
    ∃ ls, msGenerate cfgTiny envRunning none =
        some (.timeoutError cfgTiny.maxWait ls) ∧
      msPollLoop cfgTiny envRunning
        (⌈cfgTiny.maxWait / cfgTiny.pollInterval⌉.toNat + 2) 0 none =
        some (.timeoutError cfgTiny.maxWait ls) :=
  ms_poll_timeout cfgTiny envRunning none [("task_id", .jstr "abc")]
    rfl rfl (by norm_num [cfgTiny]) (by norm_num [cfgTiny]) rfl rfl rfl
    (fun _ => rfl)
    (fun _ => ⟨[("task_status", .jstr "RUNNING")], "RUNNING", rfl, rfl,
      by decide, by decide⟩)

/-! ### Base-URL normalization theorems -/

/-- An endpoint starting with `/v1` always has a version segment, so the
dead `elif` of `ModelScopeZImageGenerator.__init__` never fires. -/
theorem versionOf_of_v1_prefix {e : List Char} (h : "/v1".data <+: e) :
    versionOf e ≠ none := by
  obtain ⟨t, ht⟩ := h
  rw [← ht]
  rw [show "/v1".data ++ t = '/' :: 'v' :: '1' :: t from rfl]
  simp only [versionOf]
  rw [List.takeWhile_cons]
  rw [show isDigitChar '1' = true from rfl]
  simp

/-- C8: base-URL normalization of the two constructors.
(a) The ModelScope constructor strips a trailing version segment from the
base URL exactly when the endpoint path starts with that same version
segment and the base URL ends with it — otherwise the base URL is kept
unchanged (the `/v1` `elif` is subsumed: an endpoint starting with `/v1`
always has a version match).
(b) The Wan constructor, whenever the (suffix-stripped) base URL mentions
`dashscope`, produces a URL that ends in `/api/v1` or already carried an
`/api/` segment.
(c) For the two known providers' URL conventions the results are bit-exact:
the ModelScope default convention loses its duplicated `/v1`, and the four
Wan spellings (canonical, bare host, `/api` only, accidental
generation-path suffix) all normalize to
`https://dashscope.aliyuncs.com/api/v1`. -/
theorem base_url_normalization :
    (∀ (b e v : List Char), versionOf e = some v → v <:+ b →
      msResolveBase b e = rstripSlash (b.take (b.length - v.length))) ∧
    (∀ (b e : List Char), (∀ v, versionOf e = some v → ¬ v <:+ b) →
      msResolveBase b e = b) ∧
    (∀ p : List Char, "dashscope".data <:+: wanAfterStrip p →
      "/api/v1".data <:+ wanResolve p ∨ "/api/".data <:+: wanResolve p) ∧
    (msInitBase (some "https://api-inference.modelscope.cn/v1")
        (some "/v1/images/generations") = "https://api-inference.modelscope.cn" ∧
      wanInitBase none = "https://dashscope.aliyuncs.com/api/v1" ∧
      wanInitBase (some "https://dashscope.aliyuncs.com") =
        "https://dashscope.aliyuncs.com/api/v1" ∧
      wanInitBase (some "https://dashscope.aliyuncs.com/api/v1") =
        "https://dashscope.aliyuncs.com/api/v1" ∧
      wanInitBase (some
          "https://dashscope.aliyuncs.com/api/v1/services/aigc/multimodal-generation/generation") =
        "https://dashscope.aliyuncs.com/api/v1") := by
  refine ⟨?_, ?_, ?_, by decide, by decide, by decide, by decide, by decide⟩
  · intro b e v hv hsuf
    unfold msResolveBase
    rw [hv]
    dsimp only
    rw [if_pos hsuf]
  · intro b e h
    unfold msResolveBase
    cases hv : versionOf e with
    | some v =>
      dsimp only
      rw [if_neg (h v hv)]
    | none =>
      dsimp only
      rw [if_neg]
      rintro ⟨-, h2⟩
      exact versionOf_of_v1_prefix h2 hv
  · intro p hd
    unfold wanResolve
    dsimp only
    by_cases h1 : "/api".data <:+ wanAfterStrip p
    · rw [if_pos h1]
      obtain ⟨t, ht⟩ := h1
      left
      refine ⟨t, ?_⟩
      rw [← ht, List.append_assoc]
      rfl
    · rw [if_neg h1]
      by_cases h2 : "/api/".data <:+: wanAfterStrip p
      · rw [if_neg (by rintro ⟨hna, -⟩; exact hna h2)]
        exact Or.inr h2
      · rw [if_pos ⟨h2, hd⟩]
        exact Or.inl ⟨wanAfterStrip p, rfl⟩

/-- Witness for C8: the duplicated `/v1` of the ModelScope default
convention is stripped from the configured base URL. -/
theorem base_url_normalization_witness :
    msResolveBase "https://api-inference.modelscope.cn/v1".data
        "/v1/images/generations".data =
      rstripSlash ("https://api-inference.modelscope.cn/v1".data.take
        ("https://api-inference.modelscope.cn/v1".data.length - "/v1".data.length)) :=
  base_url_normalization.1 _ _ "/v1".data (by decide) (by decide)

end RedInk
